import Mathlib

/-!
# dockr / `src/acs.c`

Verification development for the ACS test program

```c
#include <stdio.h>

int main() {
    printf("Test ACS program successfully executing!\n");
    return 0;
}
```

The program is embedded as a state-passing function over a `World` that
holds everything the process can observe or change: its argument vector and
environment, the three standard streams and the list of I/O operations it
has issued.  `printf` is the only library function the program calls; its
model follows ISO C 7.21.6.3: it transmits the characters of the format to
`stdout` and returns their number, or a negative value when an output error
occurred.
-/

namespace Acs

/-! ## Data model -/

/-- The three standard streams of a process. -/
inductive Stream
  | stdin
  | stdout
  | stderr
deriving DecidableEq, Repr

/-- One I/O operation issued by the program, as seen from outside:
a call that writes `data` to a stream and got `result` back, or a call that
reads up to `count` characters from a stream. -/
inductive Effect
  | write (s : Stream) (data : List Char) (result : Int)
  | read (s : Stream) (count : Nat)
deriving DecidableEq, Repr

/-- Is this operation a write to standard output? -/
def Effect.isStdoutWrite : Effect → Bool
  | .write .stdout _ _ => true
  | _ => false

/-- Everything the process can observe or change.

* `argv`, `envp`: the command line and the environment the process was
  started with;
* `stdin`: the characters pending on standard input, `stdinOpen` tells
  whether the other end is still open (more input may arrive later);
* `stdout`, `stderr`: the characters written so far to the two output
  streams;
* `stdoutWritable`: whether standard output accepts writes (it does not when
  the descriptor is closed or the device is full);
* `effects`: the I/O operations issued so far, oldest first. -/
structure World where
  argv : List String
  envp : List String
  stdin : List Char
  stdinOpen : Bool
  stdout : List Char
  stdoutWritable : Bool
  stderr : List Char
  effects : List Effect
deriving DecidableEq, Repr

/-! ## The C library call used by the program -/

/-- The call `printf(format)` with no further arguments.  The characters of
`format` are transmitted to `stdout` and their number is returned; when the
stream is not writable nothing is transmitted and a negative value is
returned.  In both cases the call is recorded in `effects`.

Only formats without a conversion specification are in the domain of this
model (there are no arguments to convert); see `format_has_no_directive`. -/
def printf (format : String) (w : World) : World × Int :=
  let data := format.toList
  if w.stdoutWritable then
    ({ w with
        stdout := w.stdout ++ data,
        effects := w.effects ++ [Effect.write Stream.stdout data (data.length : Int)] },
      (data.length : Int))
  else
    ({ w with effects := w.effects ++ [Effect.write Stream.stdout data (-1)] }, -1)

/-! ## The program -/

/-- Embedding of `int main()` of `src/acs.c`: the expression statement
`printf("Test ACS program successfully executing!\n");` whose value is
discarded, followed by `return 0;`.  The function has no parameters: it
cannot see `argv` or `envp`. -/
def main (w : World) : World × Int :=
  let r := printf "Test ACS program successfully executing!\n" w
  (r.1, 0)

/-- The same body with the library call left abstract: `pf` is any
implementation of `printf`, returning the world after the call and the
value of the call. -/
def mainWith (pf : String → World → World × Int) (w : World) : World × Int :=
  let r := pf "Test ACS program successfully executing!\n" w
  (r.1, 0)

/-- Characters appended to standard output by a run of `main` from `w`. -/
def written (w : World) : List Char :=
  (main w).1.stdout.drop w.stdout.length

/-- I/O operations issued by a run of `main` from `w`. -/
def performed (w : World) : List Effect :=
  (main w).1.effects.drop w.effects.length

/-! ## Statement-level execution of the body of `main` -/

/-- The two kinds of statement in the body of `main`. -/
inductive Stmt
  | exprPrintf (format : String)
  | ret (value : Int)
deriving DecidableEq, Repr

/-- The body of `main`, statement by statement. -/
def mainBody : List Stmt :=
  [Stmt.exprPrintf "Test ACS program successfully executing!\n", Stmt.ret 0]

/-- A configuration of the running function: still executing with the
statements that remain, or returned with a status. -/
inductive Config
  | running (w : World) (rest : List Stmt)
  | returned (w : World) (status : Int)
deriving DecidableEq, Repr

/-- Execute one statement.  Reaching the closing brace of `main` returns 0
(ISO C 5.1.2.2.3); a returned configuration does not move. -/
def step : Config → Config
  | .running w (.exprPrintf f :: rest) => .running (printf f w).1 rest
  | .running w (.ret v :: _) => .returned w v
  | .running w [] => .returned w 0
  | .returned w s => .returned w s

/-- Run with a bound on the number of statements executed: `some` of the
final world and status when the function returns within `fuel` statements,
`none` when the bound is reached first. -/
def run : Nat → Config → Option (World × Int)
  | _, .returned w s => some (w, s)
  | 0, .running _ _ => none
  | fuel + 1, .running w rest => run fuel (step (.running w rest))

/-! ## Concrete worlds used as test inputs -/

/-- A process started as `acs` on a terminal: nothing written yet. -/
def freshWorld : World :=
  { argv := ["acs"], envp := [], stdin := [], stdinOpen := true,
    stdout := [], stdoutWritable := true, stderr := [], effects := [] }

/-- A process started with standard output closed (`acs >&-`). -/
def closedOutWorld : World :=
  { argv := ["acs"], envp := [], stdin := [], stdinOpen := true,
    stdout := [], stdoutWritable := false, stderr := [], effects := [] }

/-- A process started with arguments, an environment and pending input. -/
def busyWorld : World :=
  { argv := ["acs", "--verbose", "x"], envp := ["HOME=/root"],
    stdin := ['h', 'i'], stdinOpen := true,
    stdout := [], stdoutWritable := true, stderr := [], effects := [] }

/-! ## Helper lemmas -/

/-- The format passed by `main` has no conversion specification. -/
theorem format_has_no_directive :
    '%' ∉ "Test ACS program successfully executing!\n".toList := by
  decide

/-- The format passed by `main` is 41 characters long. -/
theorem format_length :
    "Test ACS program successfully executing!\n".toList.length = 41 := by
  decide

/-- Every character of the format is ASCII, so one character is one byte. -/
theorem format_ascii :
    ∀ c ∈ "Test ACS program successfully executing!\n".toList, c.toNat < 128 := by
  decide

theorem printf_stdout_of_writable (f : String) (w : World)
    (h : w.stdoutWritable = true) :
    (printf f w).1.stdout = w.stdout ++ f.toList := by
  simp [printf, h]

theorem printf_stdout_of_unwritable (f : String) (w : World)
    (h : w.stdoutWritable = false) :
    (printf f w).1.stdout = w.stdout := by
  simp [printf, h]

theorem printf_stderr (f : String) (w : World) :
    (printf f w).1.stderr = w.stderr := by
  unfold printf
  split <;> rfl

theorem printf_stdin (f : String) (w : World) :
    (printf f w).1.stdin = w.stdin ∧ (printf f w).1.stdinOpen = w.stdinOpen := by
  unfold printf
  split <;> exact ⟨rfl, rfl⟩

theorem printf_effects (f : String) (w : World) :
    (printf f w).1.effects
      = w.effects ++ [Effect.write Stream.stdout f.toList (printf f w).2] := by
  unfold printf
  split <;> rfl

theorem main_world (w : World) :
    (main w).1 = (printf "Test ACS program successfully executing!\n" w).1 := rfl

theorem main_eq_mainWith (w : World) : main w = mainWith printf w := rfl

theorem written_eq (w : World) :
    written w
      = (printf "Test ACS program successfully executing!\n" w).1.stdout.drop
          w.stdout.length := rfl

theorem performed_eq (w : World) :
    performed w
      = [Effect.write Stream.stdout "Test ACS program successfully executing!\n".toList
          (printf "Test ACS program successfully executing!\n" w).2] := by
  unfold performed
  rw [main_world, printf_effects]
  simp

/-! ## Output -/

/-- C1, as stated, fails: started with an empty standard output that is not
writable, `main` leaves standard output empty, so the bytes appended are not
the line `Test ACS program successfully executing!`. -/
theorem main_output_missing_when_unwritable :
    closedOutWorld.stdout = [] ∧
    (main closedOutWorld).1.stdout = [] ∧
    written closedOutWorld = [] ∧
    ¬ (∀ w : World, w.stdout = [] →
        (main w).1.stdout = "Test ACS program successfully executing!\n".toList) := by
  refine ⟨rfl, by decide, by decide, ?_⟩
  intro h
  exact absurd (h closedOutWorld rfl) (by decide)

/-- C1, amended: for every run of `main` whose standard output is writable,
the characters appended to standard output are exactly
`Test ACS program successfully executing!` followed by a single newline:
the text itself holds no newline, nothing precedes it and nothing follows
its terminator; from an empty standard output the final content is exactly
that line. -/
theorem main_output_of_writable (w : World) (h : w.stdoutWritable = true) :
    written w = "Test ACS program successfully executing!".toList ++ ['\n'] ∧
    '\n' ∉ "Test ACS program successfully executing!".toList ∧
    (main w).1.stdout
      = w.stdout ++ "Test ACS program successfully executing!\n".toList ∧
    (w.stdout = [] →
      (main w).1.stdout = "Test ACS program successfully executing!\n".toList) := by
  have hs : (main w).1.stdout
      = w.stdout ++ "Test ACS program successfully executing!\n".toList := by
    rw [main_world, printf_stdout_of_writable _ _ h]
  refine ⟨?_, by decide, hs, ?_⟩
  · unfold written
    rw [hs, List.drop_left]
    decide
  · intro h0
    rw [hs, h0, List.nil_append]

theorem main_output_of_writable_witness :
    freshWorld.stdoutWritable = true ∧
    written freshWorld = "Test ACS program successfully executing!".toList ++ ['\n'] ∧
    (main freshWorld).1.stdout
      = "Test ACS program successfully executing!\n".toList :=
  ⟨rfl, (main_output_of_writable freshWorld rfl).1,
    (main_output_of_writable freshWorld rfl).2.2.2 rfl⟩

/-! ## Exit status -/

/-- C2: for every run of `main`, whatever the initial world, the value
returned by `main` (the exit status of the process) is 0. -/
theorem main_exit_status_zero (w : World) : (main w).2 = 0 := rfl

/-- C3: `main` returns 0 whatever the `printf` call returns.  This holds for
every implementation of the call (any world after it, any value), `main`
being the instance with the `printf` modelled here; in particular it holds
when the call fails with a negative value, as it does on an unwritable
standard output, and when it succeeds with the count of 41 characters. -/
theorem main_exit_status_ignores_printf_result :
    (∀ (pf : String → World → World × Int) (w : World), (mainWith pf w).2 = 0) ∧
    main = mainWith printf ∧
    (∀ w : World, (printf "Test ACS program successfully executing!\n" w).2 < 0 →
      (main w).2 = 0) ∧
    ((printf "Test ACS program successfully executing!\n" closedOutWorld).2 < 0 ∧
      (main closedOutWorld).2 = 0) ∧
    ((printf "Test ACS program successfully executing!\n" freshWorld).2 = 41 ∧
      (main freshWorld).2 = 0) := by
  refine ⟨fun _ _ => rfl, rfl, fun _ _ => rfl, ⟨by decide, rfl⟩, ⟨by decide, rfl⟩⟩

/-! ## Independence from arguments, environment and input -/

/-- C4: two runs of `main` started with the same standard output (same
content, same writability, in particular both writable) and with any two
argument lists and any two environments write the same characters to
standard output, end with the same standard output content and return the
same exit status. -/
theorem main_ignores_args_and_env (w1 w2 : World)
    (hout : w1.stdout = w2.stdout)
    (hwr : w1.stdoutWritable = w2.stdoutWritable) :
    written w1 = written w2 ∧
    (main w1).1.stdout = (main w2).1.stdout ∧
    (main w1).2 = (main w2).2 := by
  have key : (main w1).1.stdout = (main w2).1.stdout := by
    rw [main_world, main_world]
    cases hb : w2.stdoutWritable with
    | true =>
      rw [printf_stdout_of_writable _ _ (hwr.trans hb),
        printf_stdout_of_writable _ _ hb, hout]
    | false =>
      rw [printf_stdout_of_unwritable _ _ (hwr.trans hb),
        printf_stdout_of_unwritable _ _ hb, hout]
  refine ⟨?_, key, rfl⟩
  unfold written
  rw [key, hout]

theorem main_ignores_args_and_env_witness :
    freshWorld.argv ≠ busyWorld.argv ∧
    freshWorld.envp ≠ busyWorld.envp ∧
    freshWorld.stdoutWritable = true ∧
    busyWorld.stdoutWritable = true ∧
    written freshWorld = written busyWorld ∧
    (main freshWorld).1.stdout = (main busyWorld).1.stdout ∧
    (main freshWorld).2 = (main busyWorld).2 :=
  ⟨by decide, by decide, rfl, rfl, main_ignores_args_and_env freshWorld busyWorld rfl rfl⟩

/-- C5: for every run of `main`, the standard-error stream of the final
world equals that of the initial world, and no operation that `main` issues
is a write to the error stream. -/
theorem main_stderr_unchanged (w : World) :
    (main w).1.stderr = w.stderr ∧
    ∀ d r, Effect.write Stream.stderr d r ∉ performed w := by
  refine ⟨?_, ?_⟩
  · rw [main_world, printf_stderr]
  · intro d r hmem
    rw [performed_eq] at hmem
    simp at hmem

/-- C6: for every run of `main`, the standard-input stream of the final
world equals that of the initial world (pending characters and open state),
`main` issues no read, and replacing standard input by any other content,
empty or not, closed or still open, changes neither the exit status nor
either output stream nor the operations issued. -/
theorem main_stdin_unchanged (w : World) :
    (main w).1.stdin = w.stdin ∧
    (main w).1.stdinOpen = w.stdinOpen ∧
    (∀ s n, Effect.read s n ∉ performed w) ∧
    ∀ (input : List Char) (isOpen : Bool),
      (main { w with stdin := input, stdinOpen := isOpen }).2 = (main w).2 ∧
      (main { w with stdin := input, stdinOpen := isOpen }).1.stdout
        = (main w).1.stdout ∧
      (main { w with stdin := input, stdinOpen := isOpen }).1.stderr
        = (main w).1.stderr ∧
      performed { w with stdin := input, stdinOpen := isOpen } = performed w := by
  refine ⟨?_, ?_, ?_, ?_⟩
  · rw [main_world, (printf_stdin _ w).1]
  · rw [main_world, (printf_stdin _ w).2]
  · intro s n hmem
    rw [performed_eq] at hmem
    simp at hmem
  · intro input isOpen
    refine ⟨rfl, ?_, ?_, ?_⟩
    · rw [main_world, main_world]
      unfold printf
      cases hb : w.stdoutWritable <;> simp [hb]
    · rw [main_world, main_world, printf_stderr, printf_stderr]
    · rw [performed_eq, performed_eq]
      unfold printf
      cases hb : w.stdoutWritable <;> simp [hb]

/-! ## Termination and effects -/

/-- C7: `main` terminates on every input.  Its body is a straight-line
sequence of two statements; executed statement by statement from any world
it returns after exactly two statements (any bound of at least two gives
the result, a bound of one or zero does not), and the world and status it
returns are those of the function `main`. -/
theorem main_terminates_in_two_statements (w : World) (fuel : Nat) :
    mainBody.length = 2 ∧
    run (fuel + 2) (Config.running w mainBody) = some (main w) ∧
    run 1 (Config.running w mainBody) = none ∧
    run 0 (Config.running w mainBody) = none := by
  refine ⟨rfl, ?_, ?_, ?_⟩
  · simp [run, step, mainBody, main]
  · simp [run, step, mainBody]
  · simp [run, mainBody]

/-- C8: for every run of `main`, the I/O operations it issues are exactly
one, and that one is a write to standard output, of the text
`Test ACS program successfully executing!` and a newline. -/
theorem main_performs_one_stdout_write (w : World) :
    (performed w).length = 1 ∧
    (∀ e ∈ performed w, e.isStdoutWrite = true) ∧
    (main w).1.effects
      = w.effects ++
        [Effect.write Stream.stdout "Test ACS program successfully executing!\n".toList
          (printf "Test ACS program successfully executing!\n" w).2] := by
  refine ⟨?_, ?_, ?_⟩
  · rw [performed_eq]
    rfl
  · intro e he
    rw [performed_eq] at he
    simp at he
    subst he
    rfl
  · rw [main_world, printf_effects]

end Acs
